import Mathlib

/-
Verification development for the aavegotchi-pet-sitter repository.

The embedding models the scheduling / verification core of the bot:
the timing aggregator (getAllAavegotchisOfOwnerWithTiming in contract.ts),
the scheduler tick (checkAndPetIfNeeded / calculateNextPetTimeWithTiming in
petSitter.ts), the verifier (verifyPettingSuccess in contract.ts), the
action executor (petAllTokenIds in petSitter.ts), the status snapshot
accessor (getStatus) and the lifecycle operations (start / stop).

External I/O (RPC reads, transaction submission, Telegram delivery) is
modelled by oracles: a fetch oracle of type Nat -> Option AavegotchiInfo
(none models a throwing getAavegotchi call), an Except-valued submission
result, and emitted notification / effect lists.  JavaScript truthiness on
bigint-or-undefined values (undefined and 0n are both falsy) is modelled
explicitly wherever the source relies on it.

Times follow the source units: lastInteracted is in seconds, the scheduler
works in milliseconds (lastInteracted * 1000 + petIntervalMs).
-/

namespace PetSitter

/-- Snapshot of one entity fetched from chain; mirrors the AavegotchiInfo
interface of src/types/aavegotchi.ts (bigints as Nat, addresses as String,
fixed-size tuples as lists). -/
structure AavegotchiInfo where
  tokenId : Nat
  name : String
  owner : String
  randomNumber : Nat
  status : Nat
  numericTraits : List Int
  modifiedNumericTraits : List Int
  equippedWearables : List Nat
  collateral : String
  escrow : String
  stakedAmount : Nat
  minimumStake : Nat
  kinship : Nat
  lastInteracted : Nat
  experience : Nat
  toNextLevel : Nat
  usedSkillPoints : Nat
  level : Nat
  hauntId : Nat
  baseRarityScore : Nat
  modifiedRarityScore : Nat
  locked : Bool
  deriving Repr, DecidableEq

/-- Mirrors the PetTargetWithTiming interface: all enumerated token ids,
the successfully fetched claimed records, and the optional shared timing. -/
structure PetTargetWithTiming where
  address : String
  allTokenIds : List Nat
  successfulAavegotchis : List AavegotchiInfo
  sharedLastInteracted : Option Nat
  deriving Repr, DecidableEq

/-- Mirrors the BotStatus interface of src/types/aavegotchi.ts. -/
structure BotStatus where
  isRunning : Bool
  lastPetTime : Option Nat
  nextPetTime : Option Nat
  totalPets : Nat
  errors : Nat
  currentTarget : Option String
  deriving Repr, DecidableEq

/-- Mirrors the PetResult interface of src/types/aavegotchi.ts. -/
structure PetResult where
  success : Bool
  transactionHash : Option String
  error : Option String
  petCount : Nat
  deriving Repr, DecidableEq

/-- A Telegram notification, tagged by kind as in TelegramService. -/
inductive Notification where
  | success (message : String)
  | error (message : String)
  | info (message : String)
  deriving Repr, DecidableEq

/-- JavaScript truthiness of a value of TypeScript type bigint-or-undefined:
undefined and 0n are falsy, every other bigint is truthy.  The source tests
such values directly in if-conditions. -/
def jsFalsy : Option Nat → Bool
  | none => true
  | some t => t == 0

/-- One step of the shared-timing update in the fetch loop of
getAllAavegotchisOfOwnerWithTiming: the source runs
if (not sharedLastInteracted) sharedLastInteracted = gotchi.lastInteracted,
so the current value is replaced exactly when it is falsy. -/
def sharedStep (shared : Option Nat) (t : Nat) : Option Nat :=
  if jsFalsy shared then some t else shared

/-- The fetch loop of getAllAavegotchisOfOwnerWithTiming (contract.ts
lines 224-273): for each token id attempt the detail fetch; a failed fetch
(none) is skipped; a fetched record with claimed status (status nonzero) is
appended to the successful list and may supply the shared timing via
sharedStep; an unclaimed record is skipped for both. -/
def collectAavegotchis (fetch : Nat → Option AavegotchiInfo) :
    List Nat → List AavegotchiInfo → Option Nat → List AavegotchiInfo × Option Nat
  | [], acc, shared => (acc, shared)
  | tid :: rest, acc, shared =>
    match fetch tid with
    | some g =>
      if g.status != 0 then
        collectAavegotchis fetch rest (acc ++ [g]) (sharedStep shared g.lastInteracted)
      else
        collectAavegotchis fetch rest acc shared
    | none => collectAavegotchis fetch rest acc shared

/-- The timing aggregator getAllAavegotchisOfOwnerWithTiming (contract.ts
lines 199-293).  The enumeration result (tokenIdsOfOwner) is the ids list;
per-id detail reads go through the fetch oracle.  An empty enumeration short
circuits; otherwise allTokenIds is the full enumerated list regardless of
fetch outcomes, and the loop fills the successful records and shared timing. -/
def getAllAavegotchisOfOwnerWithTiming (owner : String)
    (fetch : Nat → Option AavegotchiInfo) (tokenIds : List Nat) :
    PetTargetWithTiming :=
  if tokenIds.isEmpty then
    { address := owner, allTokenIds := [], successfulAavegotchis := [],
      sharedLastInteracted := none }
  else
    let res := collectAavegotchis fetch tokenIds [] none
    { address := owner, allTokenIds := tokenIds, successfulAavegotchis := res.1,
      sharedLastInteracted := res.2 }

/-- calculateNextPetTimeWithTiming (petSitter.ts lines 208-226).  The source
tests if (petTarget.sharedLastInteracted), a truthiness check, so both an
absent value and a present zero value fall through to the now-plus-interval
fallback; a truthy value yields lastInteracted * 1000 + petIntervalMs. -/
def calculateNextPetTimeWithTiming (petIntervalMs nowMs : Nat)
    (pt : PetTargetWithTiming) : Nat :=
  if pt.allTokenIds.isEmpty then nowMs + petIntervalMs
  else
    match pt.sharedLastInteracted with
    | some t => if t != 0 then t * 1000 + petIntervalMs else nowMs + petIntervalMs
    | none => nowMs + petIntervalMs

/-- Decision taken by one scheduler tick. -/
inductive TickAction where
  | noTargets
  | pet (tokenIds : List Nat) (sharedLastInteracted : Option Nat)
  | waitUntil (nextPetTime : Nat)
  deriving Repr, DecidableEq

/-- The decision part of checkAndPetIfNeeded (petSitter.ts lines 149-181):
skip when no ids were enumerated; otherwise pet all enumerated ids together
with the shared timing when the computed next pet time has been reached,
else wait. -/
def checkAndPetIfNeeded (petIntervalMs nowMs : Nat) (pt : PetTargetWithTiming) :
    TickAction :=
  if pt.allTokenIds.isEmpty then TickAction.noTargets
  else
    let nextPetTime := calculateNextPetTimeWithTiming petIntervalMs nowMs pt
    if nextPetTime ≤ nowMs then
      TickAction.pet pt.allTokenIds pt.sharedLastInteracted
    else
      TickAction.waitUntil nextPetTime

/-- Result of verifyPettingSuccess. -/
structure VerifyResult where
  success : Bool
  updatedTokens : List Nat
  deriving Repr, DecidableEq

/-- The per-record update test of verifyPettingSuccess (contract.ts lines
507-520).  The source tests preInteractionTiming with JavaScript truthiness:
a truthy before-value uses the strict comparison
gotchi.lastInteracted > preInteractionTiming, while a falsy one (undefined
or 0n) uses the recency heuristic
Number(gotchi.lastInteracted) > floor(nowMs / 1000) - 3600, computed over
JavaScript numbers, hence over Int here. -/
def countsAsUpdated (pre : Option Nat) (nowSec : Nat) (g : AavegotchiInfo) : Bool :=
  match pre with
  | some t =>
    if t != 0 then decide (t < g.lastInteracted)
    else decide ((nowSec : Int) - 3600 < (g.lastInteracted : Int))
  | none => decide ((nowSec : Int) - 3600 < (g.lastInteracted : Int))

/-- verifyPettingSuccess (contract.ts lines 492-549).  Per-id re-fetches go
through the fetch oracle; a failed re-fetch (none) is silently skipped.  The
infraError argument models the outer try/catch: a some value stands for the
verification process itself throwing, in which case the source optimistically
returns success with an empty updated list instead of propagating; the
function is total either way, so no exception reaches the caller. -/
def verifyPettingSuccess (tokenIds : List Nat) (pre : Option Nat)
    (fetch : Nat → Option AavegotchiInfo) (nowSec : Nat)
    (infraError : Option String) : VerifyResult :=
  match infraError with
  | some _ => { success := true, updatedTokens := [] }
  | none =>
    let updatedTokens := tokenIds.filter (fun tid =>
      match fetch tid with
      | some g => countsAsUpdated pre nowSec g
      | none => false)
    { success := decide (0 < updatedTokens.length), updatedTokens := updatedTokens }

/-- Pluralisation suffix used in the bot messages. -/
def aavegotchiSuffix (n : Nat) : String :=
  if 1 < n then "s" else ""

/-- Failure message of petAllTokenIds (petSitter.ts line 333). -/
def petFailMessage (n : Nat) : String :=
  "Failed to pet " ++ toString n ++ " Aavegotchi" ++ aavegotchiSuffix n

/-- Text composed by TelegramService.sendError: the message followed by the
error detail. -/
def sendErrorText (msg err : String) : String :=
  msg ++ "\n\nError: " ++ err

/-- Success message of petAllTokenIds (petSitter.ts lines 296-301). -/
def petSuccessMessage (n : Nat) (hash : String) (verified total : Nat) : String :=
  "Successfully petted " ++ toString n ++ " Aavegotchi" ++ aavegotchiSuffix n ++
    " Transaction: " ++ hash ++ " Verified: " ++ toString verified ++
    " tokens Total pets: " ++ toString total

/-- Outcome of one run of the action executor: the returned PetResult, the
updated bot stats, the notifications sent by the primary flow, and whether
the delayed control transaction was scheduled.  The detached control task
itself (petSitter.ts lines 255-287) is fire-and-forget and its own deferred
notifications are outside this transition. -/
structure PetStepResult where
  result : PetResult
  stats : BotStatus
  notifications : List Notification
  controlScheduled : Bool
  deriving Repr, DecidableEq

/-- petAllTokenIds (petSitter.ts lines 242-348).  interactResult models the
primary submission: ok hash for a confirmed transaction, error e for a throw.
On a throw the error counter is incremented, an error notification carrying
the error detail is sent, and a non-success result with petCount 0 is
returned.  On success the control transaction is scheduled and verification
decides: verified success increments totalPets, sets lastPetTime and sends a
success notification; verified failure leaves the stats untouched, sends no
notification and returns a non-success result with petCount 0. -/
def petAllTokenIds (stats : BotStatus) (tokenIds : List Nat)
    (interactResult : Except String String) (verification : VerifyResult)
    (nowMs : Nat) : PetStepResult :=
  match interactResult with
  | Except.error e =>
    { result := { success := false, transactionHash := none, error := some e,
                  petCount := 0 },
      stats := { stats with errors := stats.errors + 1 },
      notifications := [Notification.error (sendErrorText (petFailMessage tokenIds.length) e)],
      controlScheduled := false }
  | Except.ok hash =>
    if verification.success then
      { result := { success := true, transactionHash := some hash, error := none,
                    petCount := tokenIds.length },
        stats := { stats with
                   totalPets := stats.totalPets + 1
                   lastPetTime := some nowMs },
        notifications := [Notification.success
          (petSuccessMessage tokenIds.length hash verification.updatedTokens.length
            (stats.totalPets + 1))],
        controlScheduled := true }
    else
      { result := { success := false, transactionHash := some hash,
                    error := some "Petting verification failed - likely hit cooldown period",
                    petCount := 0 },
        stats := stats,
        notifications := [],
        controlScheduled := true }

/-- A heap of BotStatus objects: cells addressed by Nat, with a bump
allocator.  This models JavaScript object identity so that the spread copy
performed by getStatus can be distinguished from returning a live
reference. -/
structure StatusStore where
  cells : Nat → BotStatus
  next : Nat

/-- Read the object at an address. -/
def readCell (st : StatusStore) (r : Nat) : BotStatus :=
  st.cells r

/-- Mutate the object at an address in place. -/
def writeCell (st : StatusStore) (r : Nat) (v : BotStatus) : StatusStore :=
  { st with cells := fun i => if i = r then v else st.cells i }

/-- Allocate a fresh object holding the given field values. -/
def allocCell (st : StatusStore) (v : BotStatus) : Nat × StatusStore :=
  (st.next,
   { cells := fun i => if i = st.next then v else st.cells i, next := st.next + 1 })

/-- getStatus (petSitter.ts lines 396-398): return a spread copy of
this.stats, that is a freshly allocated object whose fields equal the
current stats object at address self. -/
def getStatus (self : Nat) (st : StatusStore) : Nat × StatusStore :=
  allocCell st (readCell st self)

/-- State of the PetSitterService instance relevant to lifecycle. -/
structure ServiceState where
  isRunning : Bool
  stats : BotStatus
  monitoringInterval : Option Nat
  healthCheckInterval : Option Nat
  deriving Repr, DecidableEq

/-- Observable side effects of the lifecycle operations. -/
inductive Effect where
  | logWarn (message : String)
  | connectivityCheck
  | entityFetch
  | notify (n : Notification)
  | monitoringLoopStarted
  | healthCheckStarted
  | timerCleared
  deriving Repr, DecidableEq

/-- Whether start returned normally or rethrew its startup error. -/
inductive StartOutcome where
  | ok
  | threw (message : String)
  deriving Repr, DecidableEq

/-- Warning logged by start when already running (petSitter.ts line 39). -/
def alreadyRunningMsg : String := "Pet sitter is already running"

/-- Warning logged by stop when not running (petSitter.ts line 91). -/
def notRunningMsg : String := "Pet sitter is not running"

/-- Startup connectivity error (petSitter.ts line 49). -/
def connectFailMsg : String := "Failed to connect to Base network"

/-- Startup empty-owner error (petSitter.ts line 55). -/
def noGotchisMsg (owner : String) : String :=
  "No claimed Aavegotchis found for address " ++ owner

/-- Error notification prefix on startup failure (petSitter.ts line 84). -/
def startFailMsg : String := "Failed to start pet sitter"

/-- Info notification sent on successful start (petSitter.ts lines 61-67). -/
def startedMsg (owner : String) (count : Nat) : String :=
  "Pet Sitter started successfully Target: " ++ owner ++
    " Aavegotchis: " ++ toString count

/-- Info notification sent by stop (petSitter.ts line 110). -/
def stoppedMsg : String := "Pet Sitter stopped"

/-- State reached by the catch branch of start (petSitter.ts lines 80-86). -/
def startFailState (s : ServiceState) : ServiceState :=
  { s with isRunning := false, stats := { s.stats with isRunning := false } }

/-- start (petSitter.ts lines 37-87).  When already running it only logs a
warning and returns.  Otherwise it checks connectivity (connOk oracle),
fetches the owner entities (fetchResult oracle), fails fast when either
fails or the owner has no claimed entities, and on success flips the running
flags, notifies, and starts the monitoring loop and the health check. -/
def start (s : ServiceState) (owner : String) (connOk : Bool)
    (fetchResult : Except String (List AavegotchiInfo)) :
    ServiceState × List Effect × StartOutcome :=
  if s.isRunning then
    (s, [Effect.logWarn alreadyRunningMsg], StartOutcome.ok)
  else if !connOk then
    (startFailState s,
     [Effect.connectivityCheck,
      Effect.notify (Notification.error (sendErrorText startFailMsg connectFailMsg))],
     StartOutcome.threw connectFailMsg)
  else
    match fetchResult with
    | Except.error e =>
      (startFailState s,
       [Effect.connectivityCheck, Effect.entityFetch,
        Effect.notify (Notification.error (sendErrorText startFailMsg e))],
       StartOutcome.threw e)
    | Except.ok gs =>
      if gs.isEmpty then
        (startFailState s,
         [Effect.connectivityCheck, Effect.entityFetch,
          Effect.notify (Notification.error (sendErrorText startFailMsg (noGotchisMsg owner)))],
         StartOutcome.threw (noGotchisMsg owner))
      else
        ({ s with isRunning := true, stats := { s.stats with isRunning := true } },
         [Effect.connectivityCheck, Effect.entityFetch,
          Effect.notify (Notification.info (startedMsg owner gs.length)),
          Effect.monitoringLoopStarted, Effect.healthCheckStarted],
         StartOutcome.ok)

/-- stop (petSitter.ts lines 89-112).  When not running it only logs a
warning and returns; otherwise it clears the running flags, clears whichever
recurring timers exist and sends the stop notification. -/
def stop (s : ServiceState) : ServiceState × List Effect :=
  if !s.isRunning then
    (s, [Effect.logWarn notRunningMsg])
  else
    ({ s with
       isRunning := false
       stats := { s.stats with isRunning := false }
       monitoringInterval := none
       healthCheckInterval := none },
     (if s.monitoringInterval.isSome then [Effect.timerCleared] else []) ++
       (if s.healthCheckInterval.isSome then [Effect.timerCleared] else []) ++
       [Effect.notify (Notification.info stoppedMsg)])

/-- Spec-side helper: the claimed records among the successful fetches, in
enumeration order (spec section 4.2 wording). -/
def claimedFetched (fetch : Nat → Option AavegotchiInfo) (ids : List Nat) :
    List AavegotchiInfo :=
  (ids.filterMap fetch).filter (fun g => g.status != 0)

/-- Spec-side definition, following the claim wording of C1: the
lastInteracted of the first successfully fetched claimed entity in
enumeration order, when one exists. -/
def specFirstClaimedLastInteracted (fetch : Nat → Option AavegotchiInfo)
    (ids : List Nat) : Option Nat :=
  (claimedFetched fetch ids).head?.map (fun g => g.lastInteracted)

/-- Spec-side definition of the amended C1 invariant: the shared activity
time is set iff some claimed entity was successfully fetched, and then
equals the lastInteracted of the first fetched claimed entity whose
lastInteracted is nonzero, or 0 when every fetched claimed entity has
lastInteracted 0. -/
def specSharedAmended (fetch : Nat → Option AavegotchiInfo) (ids : List Nat) :
    Option Nat :=
  let gs := claimedFetched fetch ids
  if gs.isEmpty then none
  else some ((((gs.map (fun g => g.lastInteracted)).find? (fun t => t != 0))).getD 0)

/-- Folding sharedStep over the claimed activity times reproduces the loop
state of the shared timing. -/
def sharedFold (shared : Option Nat) (ts : List Nat) : Option Nat :=
  ts.foldl sharedStep shared

/-- Concrete record builder for witnesses and counterexamples: only the
token id, claimed status and activity time vary. -/
def mkGotchi (tokenId status lastInteracted : Nat) : AavegotchiInfo :=
  { tokenId := tokenId, name := "", owner := "", randomNumber := 0,
    status := status, numericTraits := [], modifiedNumericTraits := [],
    equippedWearables := [], collateral := "", escrow := "", stakedAmount := 0,
    minimumStake := 0, kinship := 0, lastInteracted := lastInteracted,
    experience := 0, toNextLevel := 0, usedSkillPoints := 0, level := 0,
    hauntId := 0, baseRarityScore := 0, modifiedRarityScore := 0, locked := false }

/-- Fetch oracle for the C1 counterexample: token 1 is claimed with activity
time 0, token 2 is claimed with activity time 500. -/
def fetchZeroFirst : Nat → Option AavegotchiInfo := fun tid =>
  if tid = 1 then some (mkGotchi 1 1 0)
  else if tid = 2 then some (mkGotchi 2 1 500)
  else none

/-- Fetch oracle for the C3 counterexample: the single token is claimed with
activity time 0, producing a present-but-zero shared timing. -/
def fetchAllZero : Nat → Option AavegotchiInfo := fun tid =>
  if tid = 1 then some (mkGotchi 1 1 0) else none

/-- Fetch oracle for the C3 scenario: only token 2 is fetchable, claimed,
with activity time 1000; tokens 1 and 3 fail their detail fetch. -/
def scenarioFetch : Nat → Option AavegotchiInfo := fun tid =>
  if tid = 2 then some (mkGotchi 2 1 1000) else none

/-- Fetch oracle for the C4 counterexample: the single token is claimed with
activity time 5. -/
def fetchOld : Nat → Option AavegotchiInfo := fun tid =>
  if tid = 1 then some (mkGotchi 1 1 5) else none

/-- Sample bot stats for witnesses. -/
def statsEx : BotStatus :=
  { isRunning := true, lastPetTime := none, nextPetTime := none,
    totalPets := 3, errors := 1, currentTarget := some "0xabc" }

/-- A second, distinct sample bot stats value used as the mutation payload
in the C9 witness. -/
def statsEx2 : BotStatus :=
  { isRunning := false, lastPetTime := some 7, nextPetTime := some 9,
    totalPets := 100, errors := 50, currentTarget := none }

/-- Sample status store for the C9 witness: one live stats object at
address 0. -/
def storeEx : StatusStore :=
  { cells := fun _ => statsEx, next := 1 }

/-- Sample running service state for the C10 witness. -/
def runningStateEx : ServiceState :=
  { isRunning := true, stats := statsEx, monitoringInterval := some 11,
    healthCheckInterval := some 12 }

/-- Sample stopped service state for the C10 witness. -/
def stoppedStateEx : ServiceState :=
  { isRunning := false, stats := statsEx, monitoringInterval := none,
    healthCheckInterval := none }

/-- Sample batch for the C3 witness: one token with shared timing 7. -/
def ptEx : PetTargetWithTiming :=
  { address := "0xowner", allTokenIds := [1], successfulAavegotchis := [],
    sharedLastInteracted := some 7 }

/-- The fetch loop is the concatenation of the claimed fetched records onto
the accumulator, with the shared timing obtained by folding sharedStep over
their activity times. -/
theorem collectAavegotchis_eq (fetch : Nat → Option AavegotchiInfo) (ids : List Nat) :
    ∀ (acc : List AavegotchiInfo) (shared : Option Nat),
    collectAavegotchis fetch ids acc shared =
      (acc ++ claimedFetched fetch ids,
       sharedFold shared ((claimedFetched fetch ids).map (fun g => g.lastInteracted))) := by
  induction ids with
  | nil =>
    intro acc shared
    simp [collectAavegotchis, claimedFetched, sharedFold]
  | cons tid rest ih =>
    intro acc shared
    cases hf : fetch tid with
    | none =>
      simp [collectAavegotchis, hf, ih, claimedFetched, List.filterMap_cons]
    | some g =>
      by_cases hs : g.status = 0
      · simp [collectAavegotchis, hf, hs, ih, claimedFetched, List.filterMap_cons]
      · have hb : (g.status != 0) = true := by simp [hs]
        simp [collectAavegotchis, hf, hb, ih, claimedFetched, List.filterMap_cons,
          sharedFold, List.filter_cons]

/-- A truthy shared timing is never overwritten by the fold. -/
theorem sharedFold_some_ne (t : Nat) (ht : t ≠ 0) (ts : List Nat) :
    sharedFold (some t) ts = some t := by
  induction ts with
  | nil => rfl
  | cons a ts ih =>
    have hstep : sharedStep (some t) a = some t := by
      simp [sharedStep, jsFalsy, ht]
    simpa [sharedFold, hstep] using ih

/-- A zero shared timing behaves like an absent one for the rest of the
fold, except that it survives an empty tail. -/
theorem sharedFold_some_zero (ts : List Nat) :
    sharedFold (some 0) ts = if ts.isEmpty then some 0 else sharedFold none ts := by
  cases ts with
  | nil => rfl
  | cons a ts =>
    have h1 : sharedStep (some 0) a = some a := by simp [sharedStep, jsFalsy]
    have h2 : sharedStep none a = some a := by simp [sharedStep, jsFalsy]
    simp [sharedFold, h1, h2]

/-- Closed form of the shared-timing fold from the absent state: the first
nonzero time in the list, or 0 when the list is nonempty but all zero. -/
theorem sharedFold_none (ts : List Nat) :
    sharedFold none ts =
      if ts.isEmpty then none
      else some ((ts.find? (fun t => t != 0)).getD 0) := by
  induction ts with
  | nil => rfl
  | cons a ts ih =>
    have hstep : sharedStep none a = some a := by simp [sharedStep, jsFalsy]
    have hcons : sharedFold none (a :: ts) = sharedFold (some a) ts := by
      simp [sharedFold, hstep]
    by_cases ha : a = 0
    · subst ha
      rw [hcons, sharedFold_some_zero]
      cases ts with
      | nil => simp [List.find?]
      | cons b ts' =>
        simp only [List.isEmpty_cons, if_neg Bool.false_ne_true] at *
        rw [ih]
        simp [List.find?]
    · have hb : (a != 0) = true := by simp [ha]
      rw [hcons, sharedFold_some_ne a ha]
      simp [List.find?, hb]

/-- The batch always carries the full enumerated id list. -/
theorem allTokenIds_getAll (owner : String) (fetch : Nat → Option AavegotchiInfo)
    (ids : List Nat) :
    (getAllAavegotchisOfOwnerWithTiming owner fetch ids).allTokenIds = ids := by
  cases ids <;> simp [getAllAavegotchisOfOwnerWithTiming]

/-- When every detail fetch fails there are no claimed fetched records. -/
theorem claimedFetched_none (ids : List Nat) :
    claimedFetched (fun _ => none) ids = [] := by
  induction ids with
  | nil => rfl
  | cons tid rest ih => simp [claimedFetched, List.filterMap_cons, ih]

/-- Claim C1, counterexample.  The claim states that a set shared activity
time always equals the lastInteracted of the first successfully fetched
claimed entity in enumeration order and is never overwritten.  With the
fetch oracle fetchZeroFirst the first claimed entity (token 1) has
lastInteracted 0, which the JavaScript truthiness test treats as still
absent, so the second claimed entity (token 2, lastInteracted 500)
overwrites it: the batch ends with shared time 500 while the first claimed
entity supplies 0. -/
theorem c1_counterexample :
    (getAllAavegotchisOfOwnerWithTiming "0xowner" fetchZeroFirst [1, 2]).sharedLastInteracted
        = some 500 ∧
    specFirstClaimedLastInteracted fetchZeroFirst [1, 2] = some 0 ∧
    (500 : Nat) ≠ 0 := by
  refine ⟨by decide, by decide, by decide⟩

/-- Claim C1, amended.  For every enumeration and fetch pass, the shared
activity time is set iff at least one claimed entity was successfully
fetched, and it then equals the lastInteracted of the first fetched claimed
entity whose lastInteracted is nonzero in enumeration order (a claimed
entity with lastInteracted 0 can be overwritten by a later claimed entity),
or 0 when every fetched claimed entity has lastInteracted 0. -/
theorem c1_shared_time_amended (owner : String)
    (fetch : Nat → Option AavegotchiInfo) (ids : List Nat) :
    (getAllAavegotchisOfOwnerWithTiming owner fetch ids).sharedLastInteracted =
      specSharedAmended fetch ids := by
  cases ids with
  | nil => rfl
  | cons tid rest =>
    simp only [getAllAavegotchisOfOwnerWithTiming, List.isEmpty_cons,
      if_neg Bool.false_ne_true]
    rw [collectAavegotchis_eq, sharedFold_none]
    cases hgs : claimedFetched fetch (tid :: rest) with
    | nil => simp [specSharedAmended, hgs]
    | cons g gs => simp [specSharedAmended, hgs]

/-- Claim C2.  Whenever a tick on the batch built from enumeration ids
decides to pet, the submitted token set is exactly the enumerated id list:
the batch's allTokenIds equals the enumeration result whatever the fetch
outcomes, and per-id fetch failure only empties the successful-records
list, never the submission target set. -/
theorem c2_all_ids_submitted (owner : String) (fetch : Nat → Option AavegotchiInfo)
    (ids : List Nat) (petMs nowMs : Nat) (tids : List Nat) (sh : Option Nat)
    (h : checkAndPetIfNeeded petMs nowMs
          (getAllAavegotchisOfOwnerWithTiming owner fetch ids) =
        TickAction.pet tids sh) :
    (getAllAavegotchisOfOwnerWithTiming owner fetch ids).allTokenIds = ids ∧
    tids = ids ∧
    (getAllAavegotchisOfOwnerWithTiming owner (fun _ => none) ids).successfulAavegotchis
      = [] := by
  have hall := allTokenIds_getAll owner fetch ids
  refine ⟨hall, ?_, ?_⟩
  · simp only [checkAndPetIfNeeded, hall] at h
    split at h
    · exact absurd h (by simp)
    · split at h
      · injection h with h1 h2
        exact h1.symm
      · exact absurd h (by simp)
  · cases ids with
    | nil => rfl
    | cons tid rest =>
      simp only [getAllAavegotchisOfOwnerWithTiming, List.isEmpty_cons,
        if_neg Bool.false_ne_true]
      rw [collectAavegotchis_eq, claimedFetched_none]
      rfl

/-- Claim C2, witness: enumeration returns five ids, every detail fetch
fails, and the tick still pets all five ids. -/
theorem c2_witness :
    checkAndPetIfNeeded 0 100
        (getAllAavegotchisOfOwnerWithTiming "0xowner" (fun _ => none) [1, 2, 3, 4, 5]) =
      TickAction.pet [1, 2, 3, 4, 5] none ∧
    ((getAllAavegotchisOfOwnerWithTiming "0xowner" (fun _ => none) [1, 2, 3, 4, 5]).allTokenIds
        = [1, 2, 3, 4, 5] ∧
      [1, 2, 3, 4, 5] = [1, 2, 3, 4, 5] ∧
      (getAllAavegotchisOfOwnerWithTiming "0xowner" (fun _ => none)
        [1, 2, 3, 4, 5]).successfulAavegotchis = []) :=
  ⟨by decide,
   c2_all_ids_submitted "0xowner" (fun _ => none) [1, 2, 3, 4, 5] 0 100
     [1, 2, 3, 4, 5] none (by decide)⟩

/-- Claim C3, counterexample.  The claim states that the next action time
equals sharedActivityTime plus cooldown whenever sharedActivityTime is
present.  A batch whose only claimed entity has lastInteracted 0 carries a
present shared activity time of 0, yet the truthiness test in
calculateNextPetTimeWithTiming sends it to the now-plus-cooldown fallback
instead of 0 plus cooldown. -/
theorem c3_counterexample :
    (getAllAavegotchisOfOwnerWithTiming "0xowner" fetchAllZero [1]).sharedLastInteracted
        = some 0 ∧
    ((getAllAavegotchisOfOwnerWithTiming "0xowner" fetchAllZero [1]).sharedLastInteracted).isSome
        = true ∧
    calculateNextPetTimeWithTiming 43200000 5000000
        (getAllAavegotchisOfOwnerWithTiming "0xowner" fetchAllZero [1]) =
      5000000 + 43200000 ∧
    5000000 + 43200000 ≠ 0 * 1000 + 43200000 := by
  refine ⟨by decide, by decide, by decide, by decide⟩

/-- Claim C3, amended.  For every tick with a non-empty id set: the next
action time equals sharedActivityTime (seconds, scaled to milliseconds)
plus the cooldown when the shared activity time is present and nonzero, and
now plus the cooldown when it is absent or zero; the tick pets exactly when
the next action time is at most now; and in the concrete scenario with ids
1, 2, 3, only id 2 fetched as claimed with activity time 1000 s, cooldown
43200 s and now 44300 s, the shared time is 1000, the next action time is
44200 s (44200000 ms) and the tick pets all three ids. -/
theorem c3_next_action_time (petMs nowMs : Nat) (pt : PetTargetWithTiming)
    (h : pt.allTokenIds ≠ []) :
    (∀ t, pt.sharedLastInteracted = some t → t ≠ 0 →
        calculateNextPetTimeWithTiming petMs nowMs pt = t * 1000 + petMs) ∧
    (pt.sharedLastInteracted = none ∨ pt.sharedLastInteracted = some 0 →
        calculateNextPetTimeWithTiming petMs nowMs pt = nowMs + petMs) ∧
    (checkAndPetIfNeeded petMs nowMs pt =
        TickAction.pet pt.allTokenIds pt.sharedLastInteracted ↔
      calculateNextPetTimeWithTiming petMs nowMs pt ≤ nowMs) ∧
    ((getAllAavegotchisOfOwnerWithTiming "0xowner" scenarioFetch [1, 2, 3]).sharedLastInteracted
        = some 1000 ∧
      calculateNextPetTimeWithTiming 43200000 44300000
          (getAllAavegotchisOfOwnerWithTiming "0xowner" scenarioFetch [1, 2, 3]) =
        44200000 ∧
      checkAndPetIfNeeded 43200000 44300000
          (getAllAavegotchisOfOwnerWithTiming "0xowner" scenarioFetch [1, 2, 3]) =
        TickAction.pet [1, 2, 3] (some 1000)) := by
  have hI : pt.allTokenIds.isEmpty = false := by
    cases hpt : pt.allTokenIds with
    | nil => exact absurd hpt h
    | cons a l => rfl
  refine ⟨?_, ?_, ?_, by decide, by decide, by decide⟩
  · intro t hs ht
    have hb : (t != 0) = true := by simp [ht]
    simp [calculateNextPetTimeWithTiming, hI, hs, hb]
  · intro hcase
    rcases hcase with hs | hs <;>
      simp [calculateNextPetTimeWithTiming, hI, hs]
  · constructor
    · intro hp
      by_cases hle : calculateNextPetTimeWithTiming petMs nowMs pt ≤ nowMs
      · exact hle
      · simp [checkAndPetIfNeeded, hI, hle] at hp
    · intro hle
      simp [checkAndPetIfNeeded, hI, hle]

/-- Claim C3, witness: a one-token batch with shared timing 7 s, cooldown
100 ms, now 7100 ms, on which the tick condition is reached exactly. -/
theorem c3_witness :
    ptEx.allTokenIds ≠ [] ∧
    ((∀ t, ptEx.sharedLastInteracted = some t → t ≠ 0 →
        calculateNextPetTimeWithTiming 100 7100 ptEx = t * 1000 + 100) ∧
     (ptEx.sharedLastInteracted = none ∨ ptEx.sharedLastInteracted = some 0 →
        calculateNextPetTimeWithTiming 100 7100 ptEx = 7100 + 100) ∧
     (checkAndPetIfNeeded 100 7100 ptEx =
          TickAction.pet ptEx.allTokenIds ptEx.sharedLastInteracted ↔
        calculateNextPetTimeWithTiming 100 7100 ptEx ≤ 7100) ∧
     ((getAllAavegotchisOfOwnerWithTiming "0xowner" scenarioFetch [1, 2, 3]).sharedLastInteracted
          = some 1000 ∧
       calculateNextPetTimeWithTiming 43200000 44300000
           (getAllAavegotchisOfOwnerWithTiming "0xowner" scenarioFetch [1, 2, 3]) =
         44200000 ∧
       checkAndPetIfNeeded 43200000 44300000
           (getAllAavegotchisOfOwnerWithTiming "0xowner" scenarioFetch [1, 2, 3]) =
         TickAction.pet [1, 2, 3] (some 1000))) :=
  ⟨by decide, c3_next_action_time 100 7100 ptEx (by decide)⟩

/-- Claim C4, counterexample.  The claim states that whenever a before
timestamp T was supplied, an id is counted as updated iff its re-fetched
activity time is strictly greater than T.  Supplying T = 0 with a
re-fetched activity time of 5 (strictly greater than 0 but far older than
one hour before now = 1000000 s) yields no counted id, because the source
tests the before value with JavaScript truthiness and 0n falls through to
the recency heuristic. -/
theorem c4_counterexample :
    (verifyPettingSuccess [1] (some 0) fetchOld 1000000 none).updatedTokens = [] ∧
    (verifyPettingSuccess [1] (some 0) fetchOld 1000000 none).success = false ∧
    0 < ((fetchOld 1).map (fun g => g.lastInteracted)).getD 0 := by
  refine ⟨by decide, by decide, by decide⟩

/-- Claim C4, amended.  For every verification run in which a nonzero
before timestamp T was supplied, a successfully re-fetched id is counted as
updated iff its re-fetched activity time is strictly greater than T; in
particular an activity time equal to T is not counted.  A supplied before
timestamp of 0 behaves as if absent. -/
theorem c4_strict_before_amended (ids : List Nat) (t : Nat)
    (fetch : Nat → Option AavegotchiInfo) (nowSec tid : Nat) (ht : t ≠ 0) :
    tid ∈ (verifyPettingSuccess ids (some t) fetch nowSec none).updatedTokens ↔
      tid ∈ ids ∧ ∃ g, fetch tid = some g ∧ t < g.lastInteracted := by
  have hb : (t != 0) = true := by simp [ht]
  simp only [verifyPettingSuccess]
  rw [List.mem_filter]
  cases hf : fetch tid <;> simp [hf, countsAsUpdated, hb]

/-- Claim C4, witness: before timestamp 3 with a re-fetched activity time
of 5 on token 1. -/
theorem c4_witness :
    (3 : Nat) ≠ 0 ∧
    (1 ∈ (verifyPettingSuccess [1] (some 3) fetchOld 1000000 none).updatedTokens ↔
      1 ∈ [1] ∧ ∃ g, fetchOld 1 = some g ∧ 3 < g.lastInteracted) :=
  ⟨by decide, c4_strict_before_amended [1] 3 fetchOld 1000000 1 (by decide)⟩

/-- Claim C5.  When the verification process itself throws (modelled by the
infraError argument of verifyPettingSuccess), the result is success with an
empty updated-token list — the function is total, so no exception reaches
the caller — and the action executor run using that verification result
leaves the process-wide error counter unchanged. -/
theorem c5_verification_infra_failure (ids : List Nat) (pre : Option Nat)
    (fetch : Nat → Option AavegotchiInfo) (nowSec : Nat) (e : String)
    (stats : BotStatus) (hash : String) (nowMs : Nat) :
    verifyPettingSuccess ids pre fetch nowSec (some e) =
      { success := true, updatedTokens := [] } ∧
    (petAllTokenIds stats ids (Except.ok hash)
        (verifyPettingSuccess ids pre fetch nowSec (some e)) nowMs).stats.errors =
      stats.errors :=
  ⟨rfl, rfl⟩

/-- Claim C6.  For every verification run with no before timestamp, a
successfully re-fetched id is counted as updated iff its activity time is
strictly within the last hour of now; concretely, at now = 100000 s an
activity time of 96399 s (now minus 3601) is not counted while 96401 s
(now minus 3599) is. -/
theorem c6_recency_heuristic (ids : List Nat)
    (fetch : Nat → Option AavegotchiInfo) (nowSec tid : Nat) :
    (tid ∈ (verifyPettingSuccess ids none fetch nowSec none).updatedTokens ↔
      tid ∈ ids ∧ ∃ g, fetch tid = some g ∧
        (nowSec : Int) - 3600 < (g.lastInteracted : Int)) ∧
    (verifyPettingSuccess [7] none (fun _ => some (mkGotchi 7 1 96399)) 100000
        none).updatedTokens = [] ∧
    (verifyPettingSuccess [7] none (fun _ => some (mkGotchi 7 1 96401)) 100000
        none).updatedTokens = [7] := by
  refine ⟨?_, by decide, by decide⟩
  simp only [verifyPettingSuccess]
  rw [List.mem_filter]
  cases hf : fetch tid <;> simp [hf, countsAsUpdated]

/-- Claim C7.  When the primary submission throws, the action executor
increments the error counter by exactly one, returns a non-success outcome
with action count 0, and the notifications sent are exactly one failure
notification carrying the error detail — in particular no success
notification. -/
theorem c7_submission_throws (stats : BotStatus) (ids : List Nat) (e : String)
    (verif : VerifyResult) (nowMs : Nat) :
    (petAllTokenIds stats ids (Except.error e) verif nowMs).stats.errors =
      stats.errors + 1 ∧
    (petAllTokenIds stats ids (Except.error e) verif nowMs).result.success = false ∧
    (petAllTokenIds stats ids (Except.error e) verif nowMs).result.petCount = 0 ∧
    (petAllTokenIds stats ids (Except.error e) verif nowMs).notifications =
      [Notification.error (sendErrorText (petFailMessage ids.length) e)] :=
  ⟨rfl, rfl, rfl, rfl⟩

/-- Claim C8.  When the primary submission succeeds but verification
reports failure, the action executor leaves the whole stats object
unchanged (so the error counter, the total-action counter and the
last-action time are untouched), returns a non-success outcome with action
count 0, and sends no notification at all — in particular no success
notification. -/
theorem c8_verified_failure (stats : BotStatus) (ids : List Nat) (hash : String)
    (verif : VerifyResult) (nowMs : Nat) (h : verif.success = false) :
    (petAllTokenIds stats ids (Except.ok hash) verif nowMs).stats = stats ∧
    (petAllTokenIds stats ids (Except.ok hash) verif nowMs).result.success = false ∧
    (petAllTokenIds stats ids (Except.ok hash) verif nowMs).result.petCount = 0 ∧
    (petAllTokenIds stats ids (Except.ok hash) verif nowMs).notifications = [] := by
  simp [petAllTokenIds, h]

/-- Claim C8, witness: a failed verification result on a one-token run. -/
theorem c8_witness :
    ({ success := false, updatedTokens := [] } : VerifyResult).success = false ∧
    ((petAllTokenIds statsEx [1] (Except.ok "0xh")
        { success := false, updatedTokens := [] } 5).stats = statsEx ∧
      (petAllTokenIds statsEx [1] (Except.ok "0xh")
        { success := false, updatedTokens := [] } 5).result.success = false ∧
      (petAllTokenIds statsEx [1] (Except.ok "0xh")
        { success := false, updatedTokens := [] } 5).result.petCount = 0 ∧
      (petAllTokenIds statsEx [1] (Except.ok "0xh")
        { success := false, updatedTokens := [] } 5).notifications = []) :=
  ⟨rfl, c8_verified_failure statsEx [1] "0xh" { success := false, updatedTokens := [] } 5 rfl⟩

/-- Claim C9.  getStatus returns a spread copy of the live stats object,
never the object itself: the snapshot's field values equal the live ones;
calling getStatus twice without an intervening tick returns equal values;
mutating the returned snapshot cell does not change the live stats cell;
and a getStatus call made after such a mutation still returns the original
values. -/
theorem c9_status_snapshot (st : StatusStore) (self : Nat) (v : BotStatus)
    (h : self < st.next) :
    readCell (getStatus self st).2 (getStatus self st).1 = readCell st self ∧
    readCell (getStatus self (getStatus self st).2).2
        (getStatus self (getStatus self st).2).1 =
      readCell (getStatus self st).2 (getStatus self st).1 ∧
    readCell (writeCell (getStatus self st).2 (getStatus self st).1 v) self =
      readCell st self ∧
    readCell (getStatus self (writeCell (getStatus self st).2 (getStatus self st).1 v)).2
        (getStatus self (writeCell (getStatus self st).2 (getStatus self st).1 v)).1 =
      readCell st self := by
  have h1 : self ≠ st.next := Nat.ne_of_lt h
  refine ⟨?_, ?_, ?_, ?_⟩ <;>
    simp [getStatus, allocCell, readCell, writeCell, h1]

/-- Claim C9, witness: a store with one live stats object at address 0 and
a distinct mutation payload. -/
theorem c9_witness :
    (0 : Nat) < storeEx.next ∧
    (readCell (getStatus 0 storeEx).2 (getStatus 0 storeEx).1 = readCell storeEx 0 ∧
      readCell (getStatus 0 (getStatus 0 storeEx).2).2
          (getStatus 0 (getStatus 0 storeEx).2).1 =
        readCell (getStatus 0 storeEx).2 (getStatus 0 storeEx).1 ∧
      readCell (writeCell (getStatus 0 storeEx).2 (getStatus 0 storeEx).1 statsEx2) 0 =
        readCell storeEx 0 ∧
      readCell
          (getStatus 0 (writeCell (getStatus 0 storeEx).2 (getStatus 0 storeEx).1 statsEx2)).2
          (getStatus 0 (writeCell (getStatus 0 storeEx).2 (getStatus 0 storeEx).1 statsEx2)).1 =
        readCell storeEx 0) :=
  ⟨by decide, c9_status_snapshot storeEx 0 statsEx2 (by decide)⟩

/-- Claim C10.  Calling start while already running returns normally with
only a warning log: no connectivity check, no entity fetch, no monitoring
loop or health check started, and the state is unchanged.  Calling stop
while not running likewise returns normally with only a warning log: no
timer cleared and no state change. -/
theorem c10_lifecycle_noops (s1 s2 : ServiceState) (owner : String)
    (connOk : Bool) (fr : Except String (List AavegotchiInfo))
    (h1 : s1.isRunning = true) (h2 : s2.isRunning = false) :
    start s1 owner connOk fr = (s1, [Effect.logWarn alreadyRunningMsg], StartOutcome.ok) ∧
    stop s2 = (s2, [Effect.logWarn notRunningMsg]) := by
  constructor
  · simp [start, h1]
  · simp [stop, h2]

/-- Claim C10, witness: a running sample state for start and a stopped
sample state for stop. -/
theorem c10_witness :
    runningStateEx.isRunning = true ∧ stoppedStateEx.isRunning = false ∧
    (start runningStateEx "0xowner" true (Except.ok []) =
        (runningStateEx, [Effect.logWarn alreadyRunningMsg], StartOutcome.ok) ∧
      stop stoppedStateEx = (stoppedStateEx, [Effect.logWarn notRunningMsg])) :=
  ⟨rfl, rfl,
   c10_lifecycle_noops runningStateEx stoppedStateEx "0xowner" true (Except.ok []) rfl rfl⟩

end PetSitter
